import Mathlib

/-!
Shallow embedding of the snapshot-capture engine of `src/snapshot-client.ts`
(class `SnapshotClient`), together with theorems checking the specification's
claims about it.

JavaScript runtime values handed to `capture` are modelled by the inductive
type `JSValue`; `JSON.stringify` is modelled by `jsonStringify`, which fails
(throws) exactly on BigInt values and on objects containing a circular
reference, and returns `none` for `undefined` (as `JSON.stringify(undefined)`
does).  Records (`Record<string, any>`) are modelled as association lists in
insertion order, with JavaScript's property-assignment semantics (`setA`).
-/

namespace SnapshotClient

/-- Model of the JavaScript values that can appear in a variables map. -/
inductive JSValue where
  | str (s : String)
  | num (n : Int)
  | bool (b : Bool)
  | null
  | undef
  | bigint (n : Int)
  | obj (fields : List (String × JSValue))
  | circular

/-- Result of JavaScript `typeof` on a modelled value. -/
def typeofStr : JSValue → String
  | .str _ => "string"
  | .num _ => "number"
  | .bool _ => "boolean"
  | .null => "object"
  | .undef => "undefined"
  | .bigint _ => "bigint"
  | .obj _ => "object"
  | .circular => "object"

/-- JSON string escaping for the characters we model. -/
def jsonEscape (s : String) : String :=
  String.join (s.data.map fun c =>
    if c = '"' then "\\\""
    else if c = '\\' then "\\\\"
    else if c = '\n' then "\\n"
    else if c = '\t' then "\\t"
    else if c = '\r' then "\\r"
    else String.singleton c)

mutual

/-- Model of `JSON.stringify`: `.error ()` models a thrown `TypeError`
(BigInt values, circular structures); `.ok none` models the `undefined`
result (top-level `undefined`). -/
def jsonStringify : JSValue → Except Unit (Option String)
  | .str s => .ok (some ("\"" ++ jsonEscape s ++ "\""))
  | .num n => .ok (some (toString n))
  | .bool b => .ok (some (if b then "true" else "false"))
  | .null => .ok (some "null")
  | .undef => .ok none
  | .bigint _ => .error ()
  | .circular => .error ()
  | .obj fields => do
      let parts ← jsonStringifyFields fields
      .ok (some ("\x7b" ++ String.intercalate "," parts ++ "\x7d"))

/-- Serialize the fields of an object; properties whose value serializes to
`undefined` are dropped, as `JSON.stringify` does. -/
def jsonStringifyFields : List (String × JSValue) → Except Unit (List String)
  | [] => .ok []
  | (k, v) :: rest => do
      let sv ← jsonStringify v
      let rest2 ← jsonStringifyFields rest
      match sv with
      | some s => .ok (("\"" ++ jsonEscape k ++ "\":" ++ s) :: rest2)
      | none => .ok rest2

end

/-- Association-list lookup, modelling property read on a JS object. -/
def lookupA : List (String × JSValue) → String → Option JSValue
  | [], _ => none
  | (k2, v) :: rest, k => if k2 = k then some v else lookupA rest k

/-- Association-list update, modelling JS property assignment: an existing
key keeps its position, a new key is appended. -/
def setA : List (String × JSValue) → String → JSValue → List (String × JSValue)
  | [], k, v => [(k, v)]
  | (k2, v2) :: rest, k, v =>
      if k2 = k then (k, v) :: rest else (k2, v2) :: setA rest k v

/-- Per-entry transform of `sanitizeVariables`: keep a serializable value,
replace a non-serializable one with the type-tag placeholder. -/
def sanitizeEntry (v : JSValue) : JSValue :=
  match jsonStringify v with
  | .ok _ => v
  | .error _ => .str ("[" ++ typeofStr v ++ "]")

/-- Model of `SnapshotClient.sanitizeVariables` (snapshot-client.ts:285). -/
def sanitizeVariables (vars : List (String × JSValue)) :
    List (String × JSValue) :=
  vars.foldl (fun san kv => setA san kv.1 (sanitizeEntry kv.2)) []

/-- Case-insensitive prefix test on character lists. -/
def charsPrefixCI : List Char → List Char → Bool
  | [], _ => true
  | _ :: _, [] => false
  | a :: as, b :: bs => a.toLower == b.toLower && charsPrefixCI as bs

/-- Exact prefix test on character lists. -/
def charsPrefixOf : List Char → List Char → Bool
  | [], _ => true
  | _ :: _, [] => false
  | a :: as, b :: bs => a == b && charsPrefixOf as bs

/-- Substring (infix) test on character lists. -/
def charsInfixOf : List Char → List Char → Bool
  | pat, [] => pat.isEmpty
  | pat, c :: rest => charsPrefixOf pat (c :: rest) || charsInfixOf pat rest

/-- Case-insensitive substring containment on strings. -/
def containsCI (hay pat : String) : Bool :=
  charsInfixOf (pat.data.map Char.toLower) (hay.data.map Char.toLower)

/-- Model of the variable-name test `/password|secret|token|key|credential/i`
(snapshot-client.ts:318). -/
def sensitiveName (name : String) : Bool :=
  ["password", "secret", "token", "key", "credential"].any
    (fun t => containsCI name t)

/-- ASCII whitespace recognized by the regex class `\s`. -/
def isSpaceJS (c : Char) : Bool :=
  c == ' ' || c == '\t' || c == '\n' || c == '\r' || c == '\x0b' || c == '\x0c'

/-- Word characters for the regex boundary `\b`. -/
def isWordChar (c : Char) : Bool :=
  (decide ('a' ≤ c) && decide (c ≤ 'z')) ||
  (decide ('A' ≤ c) && decide (c ≤ 'Z')) ||
  (decide ('0' ≤ c) && decide (c ≤ '9')) || c == '_'

/-- The character class `[A-Za-z0-9_-]` used by the api-key and jwt
patterns. -/
def isKeyChar (c : Char) : Bool :=
  c.isAlpha || c.isDigit || c == '_' || c == '-'

/-- The single-quote character. -/
def singleQuote : Char := Char.ofNat 39

/-- Tail of the password/api-key patterns after the keyword:
`\s*[=:]\s*["']?` followed by at least `minLen` characters satisfying
`valOk`. -/
def kvTail (minLen : Nat) (valOk : Char → Bool) (l : List Char) : Bool :=
  match l.dropWhile isSpaceJS with
  | [] => false
  | c :: rest =>
      (c == '=' || c == ':') &&
        (let r2 := rest.dropWhile isSpaceJS
         let r3 := match r2 with
           | q :: r => if q == '"' || q == singleQuote then r else r2
           | [] => r2
         decide (minLen ≤ (r3.takeWhile valOk).length))

/-- Match a literal keyword case-insensitively, then the given tail. -/
def kwThen (kw : String) (tail : List Char → Bool) (l : List Char) : Bool :=
  charsPrefixCI kw.data l && tail (l.drop kw.data.length)

/-- Value characters of the password pattern: `[^\s"']`. -/
def passwordValChar (c : Char) : Bool :=
  !isSpaceJS c && c != '"' && c != singleQuote

/-- Match of `/(?:password|passwd|pwd)\s*[=:]\s*["']?[^\s"']{6,}/i` at the
start of the list. -/
def passwordAt (l : List Char) : Bool :=
  kwThen "password" (kvTail 6 passwordValChar) l ||
  kwThen "passwd" (kvTail 6 passwordValChar) l ||
  kwThen "pwd" (kvTail 6 passwordValChar) l

/-- Match of `/(?:api[_-]?key|apikey)\s*[=:]\s*["']?[A-Za-z0-9_-]{20,}/i` at
the start of the list. -/
def apiKeyAt (l : List Char) : Bool :=
  kwThen "api_key" (kvTail 20 isKeyChar) l ||
  kwThen "api-key" (kvTail 20 isKeyChar) l ||
  kwThen "apikey" (kvTail 20 isKeyChar) l

/-- Match of `/eyJ[A-Za-z0-9_-]*\.eyJ[A-Za-z0-9_-]*\.[A-Za-z0-9_-]*/` at the
start of the list (the class excludes the dot, so the greedy runs are
forced). -/
def jwtAt (l : List Char) : Bool :=
  charsPrefixOf "eyJ".data l &&
    (match (l.drop 3).dropWhile isKeyChar with
     | '.' :: r2 =>
         charsPrefixOf "eyJ".data r2 &&
           (match (r2.drop 3).dropWhile isKeyChar with
            | '.' :: _ => true
            | _ => false)
     | _ => false)

/-- Start of list or a non-word character: the boundary `\b` after the
digits. -/
def nonWordOrEnd : List Char → Bool
  | [] => true
  | c :: _ => !isWordChar c

/-- Every character is a decimal digit. -/
def allDigits (l : List Char) : Bool := l.all Char.isDigit

/-- Match of `4[0-9]{12}(?:[0-9]{3})?\b|5[1-5][0-9]{14}\b` at the start of
the list (the leading `\b` is handled by the scanner). -/
def ccAt (l : List Char) : Bool :=
  match l with
  | '4' :: rest =>
      decide ((rest.take 12).length = 12) && allDigits (rest.take 12) &&
        (let after13 := rest.drop 12
         (decide ((after13.take 3).length = 3) && allDigits (after13.take 3)
            && nonWordOrEnd (after13.drop 3))
         || nonWordOrEnd after13)
  | '5' :: c2 :: rest =>
      (c2 == '1' || c2 == '2' || c2 == '3' || c2 == '4' || c2 == '5') &&
      decide ((rest.take 14).length = 14) && allDigits (rest.take 14) &&
      nonWordOrEnd (rest.drop 14)
  | _ => false

/-- Try a position-wise matcher at every position of the list. -/
def scanAll (p : List Char → Bool) : List Char → Bool
  | [] => p []
  | c :: rest => p (c :: rest) || scanAll p rest

/-- Try a matcher at every position, supplying the preceding character (for
the leading `\b` of the credit-card pattern). -/
def scanWithPrev (p : Option Char → List Char → Bool) :
    Option Char → List Char → Bool
  | prev, [] => p prev []
  | prev, c :: rest => p prev (c :: rest) || scanWithPrev p (some c) rest

/-- Word boundary before the match position. -/
def boundaryBefore : Option Char → Bool
  | none => true
  | some c => !isWordChar c

/-- Model of `sensitivePatterns.password.test`. -/
def testPassword (s : String) : Bool := scanAll passwordAt s.data

/-- Model of `sensitivePatterns.api_key.test`. -/
def testApiKey (s : String) : Bool := scanAll apiKeyAt s.data

/-- Model of `sensitivePatterns.jwt.test`. -/
def testJwt (s : String) : Bool := scanAll jwtAt s.data

/-- Model of `sensitivePatterns.credit_card.test`. -/
def testCreditCard (s : String) : Bool :=
  scanWithPrev (fun prev l => boundaryBefore prev && ccAt l) none s.data

/-- First value pattern that matches, in the insertion order of
`sensitivePatterns` (the inner loop of `scanForSecurityIssues` breaks on the
first hit). -/
def firstValuePattern (s : String) : Option String :=
  if testPassword s then some "password"
  else if testApiKey s then some "api_key"
  else if testJwt s then some "jwt"
  else if testCreditCard s then some "credit_card"
  else none

/-- Model of the `SecurityFlag` record (snapshot-client.ts:18); the source
field `variable` is a Lean keyword and is rendered `variable_`. -/
structure SecurityFlag where
  type : String
  severity : String
  variable_ : Option String
deriving DecidableEq, Repr

/-- Loop body of `scanForSecurityIssues` (snapshot-client.ts:316-341):
name-based redaction first (with `continue`), otherwise value serialization
(which can throw: the `JSON.stringify` on line 329 is not guarded) and the
first-match value patterns. -/
def scanLoop (sanitized : List (String × JSValue)) (flags : List SecurityFlag) :
    List (String × JSValue) →
    Except Unit (List (String × JSValue) × List SecurityFlag)
  | [] => .ok (sanitized, flags)
  | (name, value) :: rest =>
      if sensitiveName name then
        scanLoop (setA sanitized name (.str "[REDACTED]"))
          (flags ++ [⟨"sensitive_variable_name", "medium", some name⟩]) rest
      else
        match jsonStringify value with
        | .error e => .error e
        | .ok ser =>
            match firstValuePattern (ser.getD "undefined") with
            | some t =>
                scanLoop (setA sanitized name (.str "[REDACTED]"))
                  (flags ++ [⟨"sensitive_data_" ++ t, "high", some name⟩]) rest
            | none => scanLoop sanitized flags rest

/-- Model of `SnapshotClient.scanForSecurityIssues` (snapshot-client.ts:301).
The `.error` case models the uncaught exception thrown by the bare
`JSON.stringify(value)` on line 329. -/
def scanForSecurityIssues (vars : List (String × JSValue)) :
    Except Unit (List (String × JSValue) × List SecurityFlag) :=
  scanLoop (sanitizeVariables vars) [] vars

/-- Model of the `BreakpointConfig` record (snapshot-client.ts:4); optional
fields are `Option`, dates are integer timestamps. -/
structure BreakpointConfig where
  id : String
  service_name : String
  file_path : String
  function_name : String
  label : Option String
  line_number : Int
  condition : Option String
  max_captures : Int
  capture_count : Int
  expire_at : Option Int
  enabled : Bool
deriving DecidableEq, Repr

/-- JavaScript truthiness of the guard `bp.label && bp.function_name`
(snapshot-client.ts:209): both strings present and non-empty. -/
def truthyLabel (bp : BreakpointConfig) : Bool :=
  (match bp.label with
   | some l => l != ""
   | none => false) && bp.function_name != ""

/-- The primary cache key `` `${bp.function_name}:${bp.label}` `` (only ever
formed when `truthyLabel` holds). -/
def primaryKey (bp : BreakpointConfig) : String :=
  bp.function_name ++ ":" ++ bp.label.getD ""

/-- The secondary cache key `` `${bp.file_path}:${bp.line_number}` ``. -/
def secondaryKey (bp : BreakpointConfig) : String :=
  bp.file_path ++ ":" ++ toString bp.line_number

/-- The breakpoint cache, modelled as a map from key strings to configs. -/
def CacheMap : Type := String → Option BreakpointConfig

/-- `Map.set` on the cache. -/
def setF (m : CacheMap) (k : String) (bp : BreakpointConfig) : CacheMap :=
  fun k2 => if k2 = k then some bp else m k2

/-- The cleared cache (`Map.clear`). -/
def emptyCache : CacheMap := fun _ => none

/-- Loop body of `updateBreakpointCache` (snapshot-client.ts:207-217): set
the primary key when label and function name are truthy, always set the
secondary key. -/
def cacheInsert (m : CacheMap) (bp : BreakpointConfig) : CacheMap :=
  let m1 := if truthyLabel bp then setF m (primaryKey bp) bp else m
  setF m1 (secondaryKey bp) bp

/-- Model of `SnapshotClient.updateBreakpointCache` (snapshot-client.ts:204):
clear, then insert every fetched config. -/
def updateBreakpointCache (bps : List BreakpointConfig) : CacheMap :=
  bps.foldl cacheInsert emptyCache

/-- The keys written into the cache by one config during a sync. -/
def keysWritten (bp : BreakpointConfig) : List String :=
  (if truthyLabel bp then [primaryKey bp] else []) ++ [secondaryKey bp]

/-- Caller location produced by `parseStackTrace` (snapshot-client.ts:151). -/
structure CallerInfo where
  file : String
  line : Int
  functionName : String
deriving DecidableEq, Repr

/-- Model of the `Snapshot` record (snapshot-client.ts:24) as assembled at
snapshot-client.ts:132-144; the source field `variables` is a reserved Lean
token and is rendered `variables_`. -/
structure Snapshot where
  breakpoint_id : Option String
  service_name : String
  file_path : String
  function_name : String
  label : Option String
  line_number : Int
  variables_ : List (String × JSValue)
  security_flags : List SecurityFlag
  stack_trace : String
  request_context : Option (List (String × JSValue))
  captured_at : Int

/-- Mutable state of a `SnapshotClient` instance relevant to capture. -/
structure ClientState where
  serviceName : String
  breakpointsCache : CacheMap
  registrationCache : List String

/-- Result of one capture call: either silently skipped, or a snapshot was
built and handed to the transport. -/
inductive CaptureOutcome where
  | skipped
  | captured (s : Snapshot)

/-- Expiration guard of the capture gate (snapshot-client.ts:116):
`breakpoint.expire_at && new Date() > breakpoint.expire_at`. -/
def isExpired (bp : BreakpointConfig) (now : Int) : Bool :=
  match bp.expire_at with
  | some t => decide (now > t)
  | none => false

/-- Budget guard of the capture gate (snapshot-client.ts:121):
`breakpoint.max_captures > 0 && breakpoint.capture_count >=
breakpoint.max_captures`. -/
def budgetExhausted (bp : BreakpointConfig) : Bool :=
  decide (bp.max_captures > 0) && decide (bp.capture_count ≥ bp.max_captures)

/-- Stages 3-6 of `checkAndCaptureWithContext` (snapshot-client.ts:109-147):
cache lookup, enabled / expiration / budget guards, then the security scan
(whose uncaught exception propagates) and snapshot assembly.  The transport
call `captureSnapshot` catches all of its own errors, so it contributes no
failure; none of these stages writes any instance field. -/
def captureDecision (st : ClientState) (label : String)
    (vars : List (String × JSValue)) (stack : String) (c : CallerInfo)
    (requestContext : Option (List (String × JSValue))) (now : Int)
    (locationKey : String) : Except Unit CaptureOutcome :=
  match st.breakpointsCache locationKey with
  | none => .ok .skipped
  | some bp =>
      if !bp.enabled then .ok .skipped
      else if isExpired bp now then .ok .skipped
      else if budgetExhausted bp then .ok .skipped
      else
        match scanForSecurityIssues vars with
        | .error e => .error e
        | .ok scan =>
            .ok (.captured
              { breakpoint_id := some bp.id
                service_name := st.serviceName
                file_path := c.file
                function_name := c.functionName
                label := some label
                line_number := c.line
                variables_ := scan.1
                security_flags := scan.2
                stack_trace := stack
                request_context := requestContext
                captured_at := now })

/-- The capture stages after registration, paired with the (unmodified)
instance state. -/
def captureStage (st : ClientState) (label : String)
    (vars : List (String × JSValue)) (stack : String) (c : CallerInfo)
    (requestContext : Option (List (String × JSValue))) (now : Int)
    (locationKey : String) : ClientState × Except Unit CaptureOutcome :=
  (st, captureDecision st label vars stack c requestContext now locationKey)

/-- Model of `SnapshotClient.checkAndCaptureWithContext`
(snapshot-client.ts:75-148).  Environment-dependent effects are passed as
arguments: `caller` is the result of `parseStackTrace` on the current stack,
`registerResult` is what `autoRegisterBreakpoint` would return (`none` for
a failed registration), `requestContext` is the ambient request context and
`now` the current time.  `.error` models a rejected promise reaching the
caller. -/
def checkAndCaptureWithContext (st : ClientState) (label : String)
    (vars : List (String × JSValue)) (stack : String)
    (caller : Option CallerInfo) (registerResult : Option BreakpointConfig)
    (requestContext : Option (List (String × JSValue))) (now : Int) :
    ClientState × Except Unit CaptureOutcome :=
  match caller with
  | none => (st, .ok .skipped)
  | some c =>
      let locationKey := c.functionName ++ ":" ++ label
      if st.registrationCache.contains locationKey then
        captureStage st label vars stack c requestContext now locationKey
      else
        match registerResult with
        | some bp =>
            let st1 : ClientState :=
              { st with
                registrationCache := locationKey :: st.registrationCache
                breakpointsCache := setF st.breakpointsCache locationKey bp }
            captureStage st1 label vars stack c requestContext now locationKey
        | none => (st, .ok .skipped)

/-- Environment state for the sync-loop lifecycle: the set of interval
timers currently scheduled by the runtime, a fresh-handle counter, and the
client's `pollInterval` field. -/
structure SyncLoopState where
  activeTimers : List Nat
  nextId : Nat
  pollInterval : Option Nat
deriving DecidableEq, Repr

/-- Model of `SnapshotClient.start` (snapshot-client.ts:56): `setInterval`
schedules a fresh timer and its handle overwrites `pollInterval`
unconditionally. -/
def start (s : SyncLoopState) : SyncLoopState :=
  { activeTimers := s.activeTimers ++ [s.nextId]
    nextId := s.nextId + 1
    pollInterval := some s.nextId }

/-- Model of `SnapshotClient.stop` (snapshot-client.ts:66): `clearInterval`
cancels the timer named by `pollInterval`, if any, and the field is reset. -/
def stop (s : SyncLoopState) : SyncLoopState :=
  match s.pollInterval with
  | some h => { s with activeTimers := s.activeTimers.erase h,
                       pollInterval := none }
  | none => s

/-- An armed, unlimited, unexpired breakpoint for the capture point
`f:lab` at `app.ts:10`. -/
def bpArmed : BreakpointConfig :=
  { id := "bp1", service_name := "svc", file_path := "app.ts",
    function_name := "f", label := some "lab", line_number := 10,
    condition := none, max_captures := 0, capture_count := 0,
    expire_at := none, enabled := true }

/-- A breakpoint whose capture budget is exhausted. -/
def bpBudget : BreakpointConfig :=
  { bpArmed with id := "bp2", max_captures := 3, capture_count := 3 }

/-- An enabled breakpoint that expired at time 5. -/
def bpExpired : BreakpointConfig :=
  { bpArmed with id := "bp3", expire_at := some 5 }

/-- A fetched config whose label is the empty string (falsy in JS). -/
def bpNoLbl : BreakpointConfig :=
  { bpArmed with
    id := "bp4"
    label := some ""
    file_path := "a.ts"
    line_number := 1 }

/-- Two fetched configs sharing the primary key `f:x` but with distinct
source locations. -/
def bpDup1 : BreakpointConfig :=
  { bpArmed with
    id := "d1"
    label := some "x"
    file_path := "a.ts"
    line_number := 1 }

/-- Second of the two configs sharing the primary key `f:x`. -/
def bpDup2 : BreakpointConfig :=
  { bpArmed with
    id := "d2"
    label := some "x"
    file_path := "b.ts"
    line_number := 2 }

/-- The application call site matching `bpArmed`. -/
def callerApp : CallerInfo :=
  { file := "app.ts", line := 10, functionName := "f" }

/-- Client state with `bpArmed` cached and its capture point registered. -/
def stArmed : ClientState :=
  { serviceName := "svc",
    breakpointsCache := setF emptyCache "f:lab" bpArmed,
    registrationCache := ["f:lab"] }

/-- Client state with `bpBudget` cached and its capture point registered. -/
def stBudget : ClientState :=
  { serviceName := "svc",
    breakpointsCache := setF emptyCache "f:lab" bpBudget,
    registrationCache := ["f:lab"] }

/-- Client state with `bpExpired` cached and its capture point
registered. -/
def stExpired : ClientState :=
  { serviceName := "svc",
    breakpointsCache := setF emptyCache "f:lab" bpExpired,
    registrationCache := ["f:lab"] }

/-- Client state right after a sync that fetched no breakpoints, with the
capture point `f:lab` still registered from before. -/
def stEmptySync : ClientState :=
  { serviceName := "svc",
    breakpointsCache := updateBreakpointCache [],
    registrationCache := ["f:lab"] }

/-- A fresh client state that has seen no registration and no sync. -/
def stFresh : ClientState :=
  { serviceName := "svc", breakpointsCache := emptyCache,
    registrationCache := [] }

/-- Lifecycle environment before `start` was ever called. -/
def syncInit : SyncLoopState :=
  { activeTimers := [], nextId := 0, pollInterval := none }

theorem lookupA_setA_self (l : List (String × JSValue)) (k : String)
    (v : JSValue) : lookupA (setA l k v) k = some v := by
  induction l with
  | nil => simp [setA, lookupA]
  | cons kv rest ih =>
      obtain ⟨k2, v2⟩ := kv
      by_cases h : k2 = k
      · simp [setA, h, lookupA]
      · simp [setA, h, lookupA, ih]

theorem lookupA_setA_ne (l : List (String × JSValue)) (k k2 : String)
    (v : JSValue) (h : k ≠ k2) : lookupA (setA l k2 v) k = lookupA l k := by
  induction l with
  | nil => simp [setA, lookupA, Ne.symm h]
  | cons kv rest ih =>
      obtain ⟨k3, v3⟩ := kv
      by_cases h3 : k3 = k2
      · subst h3
        simp [setA, lookupA, Ne.symm h]
      · by_cases hk : k3 = k <;> simp [setA, h3, lookupA, hk, ih, h]

theorem lookupA_foldl_not_mem (f : JSValue → JSValue)
    (vars : List (String × JSValue)) (init : List (String × JSValue))
    (k : String) (h : k ∉ vars.map Prod.fst) :
    lookupA (vars.foldl (fun san kv => setA san kv.1 (f kv.2)) init) k =
      lookupA init k := by
  induction vars generalizing init with
  | nil => rfl
  | cons kv rest ih =>
      obtain ⟨k0, v0⟩ := kv
      simp only [List.map_cons, List.mem_cons] at h
      push_neg at h
      rw [List.foldl_cons, ih _ h.2, lookupA_setA_ne _ _ _ _ h.1]

theorem lookupA_foldl_mem (f : JSValue → JSValue)
    (vars : List (String × JSValue)) (init : List (String × JSValue))
    (k : String) (v : JSValue) (hnd : (vars.map Prod.fst).Nodup)
    (hmem : (k, v) ∈ vars) :
    lookupA (vars.foldl (fun san kv => setA san kv.1 (f kv.2)) init) k =
      some (f v) := by
  induction vars generalizing init with
  | nil => cases hmem
  | cons kv rest ih =>
      obtain ⟨k0, v0⟩ := kv
      simp only [List.map_cons, List.nodup_cons] at hnd
      rw [List.foldl_cons]
      rcases List.mem_cons.mp hmem with heq | hrest
      · cases heq
        rw [lookupA_foldl_not_mem _ _ _ _ hnd.1, lookupA_setA_self]
      · exact ih _ hnd.2 hrest

theorem cacheInsert_not_written (m : CacheMap) (bp : BreakpointConfig)
    (k : String) (h : k ∉ keysWritten bp) : cacheInsert m bp k = m k := by
  unfold cacheInsert
  cases ht : truthyLabel bp
  · have hs : k ≠ secondaryKey bp := by
      intro he; exact h (by simp [keysWritten, ht, he])
    simp [ht, setF, hs]
  · have hp : k ≠ primaryKey bp := by
      intro he; exact h (by simp [keysWritten, ht, he])
    have hs : k ≠ secondaryKey bp := by
      intro he; exact h (by simp [keysWritten, ht, he])
    simp [ht, setF, hp, hs]

theorem foldl_cacheInsert_not_written (l : List BreakpointConfig)
    (m : CacheMap) (k : String) (h : ∀ bp ∈ l, k ∉ keysWritten bp) :
    (l.foldl cacheInsert m) k = m k := by
  induction l generalizing m with
  | nil => rfl
  | cons bp rest ih =>
      rw [List.foldl_cons, ih _ (fun b hb => h b (List.mem_cons_of_mem _ hb)),
          cacheInsert_not_written m bp k (h bp (List.mem_cons_self _ _))]

theorem captureDecision_skips_of_guard (st : ClientState) (label : String)
    (vars : List (String × JSValue)) (stack : String) (c : CallerInfo)
    (rc : Option (List (String × JSValue))) (now : Int) (k : String)
    (bp : BreakpointConfig) (hbp : st.breakpointsCache k = some bp)
    (h : bp.enabled = false ∨ isExpired bp now = true ∨
         budgetExhausted bp = true) :
    captureDecision st label vars stack c rc now k = .ok .skipped := by
  unfold captureDecision
  rw [hbp]
  rcases h with h | h | h
  · simp [h]
  · cases he : bp.enabled <;> simp [he, h]
  · cases he : bp.enabled <;> cases hex : isExpired bp now <;>
      simp [he, hex, h]

theorem checkAndCapture_registered (st : ClientState) (label : String)
    (vars : List (String × JSValue)) (stack : String) (c : CallerInfo)
    (reg : Option BreakpointConfig) (rc : Option (List (String × JSValue)))
    (now : Int)
    (hreg : st.registrationCache.contains (c.functionName ++ ":" ++ label)
      = true) :
    checkAndCaptureWithContext st label vars stack (some c) reg rc now =
      (st, captureDecision st label vars stack c rc now
        (c.functionName ++ ":" ++ label)) := by
  simp only [checkAndCaptureWithContext, captureStage, hreg, if_true]

/-- C1: the claim that `checkAndCaptureWithContext` never rejects fails on
the code: with an armed, enabled breakpoint, a variables map containing a
BigInt value (not JSON-serializable, name not sensitive) makes the bare
`JSON.stringify(value)` on snapshot-client.ts:329 throw, and the rejection
escapes to the caller (modelled as `.error ()`). -/
theorem C1_capture_rejects_on_nonserializable_value :
    (checkAndCaptureWithContext stArmed "lab" [("note", JSValue.bigint 1)]
      "stk" (some callerApp) none none 0).2 = .error () := rfl

/-- C2: the serializability pass keeps every key of the input map, and a
key whose value cannot be JSON-serialized is bound to the type-tag
placeholder `[typeof value]` in the sanitized output. -/
theorem C2_sanitize_preserves_keys (vars : List (String × JSValue))
    (k : String) (v : JSValue) (hnd : (vars.map Prod.fst).Nodup)
    (hmem : (k, v) ∈ vars) :
    (lookupA (sanitizeVariables vars) k).isSome = true ∧
    (jsonStringify v = .error () →
      lookupA (sanitizeVariables vars) k =
        some (.str ("[" ++ typeofStr v ++ "]"))) := by
  have hl := lookupA_foldl_mem sanitizeEntry vars [] k v hnd hmem
  constructor
  · unfold sanitizeVariables
    rw [hl]
    rfl
  · intro h
    unfold sanitizeVariables
    rw [hl]
    unfold sanitizeEntry
    rw [h]

/-- C2 witness: a circular-object value keeps its key and is replaced by
the `[object]` placeholder. -/
theorem C2_sanitize_preserves_keys_witness :
    (lookupA (sanitizeVariables [("note", JSValue.circular)]) "note").isSome
      = true ∧
    lookupA (sanitizeVariables [("note", JSValue.circular)]) "note" =
      some (.str "[object]") := by
  have h := C2_sanitize_preserves_keys [("note", JSValue.circular)] "note"
    JSValue.circular (by simp) (by simp)
  exact ⟨h.1, h.2 rfl⟩

/-- C3: whenever the capture point resolves to a config with
`max_captures > 0` and `capture_count ≥ max_captures`, the capture call
skips and leaves the state unchanged, regardless of all other fields; and
whenever `max_captures ≤ 0` the budget guard never fires. -/
theorem C3_budget_exhausted_skips :
    (∀ (st : ClientState) (label : String) (vars : List (String × JSValue))
       (stack : String) (c : CallerInfo) (reg : Option BreakpointConfig)
       (rc : Option (List (String × JSValue))) (now : Int)
       (bp : BreakpointConfig),
       st.registrationCache.contains (c.functionName ++ ":" ++ label)
         = true →
       st.breakpointsCache (c.functionName ++ ":" ++ label) = some bp →
       bp.max_captures > 0 → bp.capture_count ≥ bp.max_captures →
       checkAndCaptureWithContext st label vars stack (some c) reg rc now =
         (st, .ok .skipped)) ∧
    (∀ bp : BreakpointConfig, bp.max_captures ≤ 0 →
       budgetExhausted bp = false) := by
  constructor
  · intro st label vars stack c reg rc now bp hreg hbp hmax hcnt
    rw [checkAndCapture_registered st label vars stack c reg rc now hreg,
        captureDecision_skips_of_guard st label vars stack c rc now _ bp hbp]
    exact Or.inr (Or.inr (by simp [budgetExhausted, hmax, hcnt]))
  · intro bp h
    simp [budgetExhausted]
    intro h2
    omega

/-- C3 witness: with `max_captures = 3` and `capture_count = 3` the call
skips, and a config with `max_captures = 0` never trips the budget guard. -/
theorem C3_budget_exhausted_skips_witness :
    checkAndCaptureWithContext stBudget "lab" [] "stk" (some callerApp)
      none none 0 = (stBudget, .ok .skipped) ∧
    budgetExhausted bpArmed = false := by
  constructor
  · exact C3_budget_exhausted_skips.1 stBudget "lab" [] "stk" callerApp
      none none 0 bpBudget (by decide) (by decide) (by decide) (by decide)
  · exact C3_budget_exhausted_skips.2 bpArmed (by decide)

/-- C4: a capture call resolving to a config whose `expire_at` is set and
strictly in the past skips and leaves the state unchanged, even when the
config is enabled and its budget is not exhausted. -/
theorem C4_expired_skips (st : ClientState) (label : String)
    (vars : List (String × JSValue)) (stack : String) (c : CallerInfo)
    (reg : Option BreakpointConfig) (rc : Option (List (String × JSValue)))
    (now t : Int) (bp : BreakpointConfig)
    (hreg : st.registrationCache.contains (c.functionName ++ ":" ++ label)
      = true)
    (hbp : st.breakpointsCache (c.functionName ++ ":" ++ label) = some bp)
    (hexp : bp.expire_at = some t) (hpast : t < now)
    (hen : bp.enabled = true) (hbud : budgetExhausted bp = false) :
    checkAndCaptureWithContext st label vars stack (some c) reg rc now =
      (st, .ok .skipped) := by
  rw [checkAndCapture_registered st label vars stack c reg rc now hreg,
      captureDecision_skips_of_guard st label vars stack c rc now _ bp hbp]
  exact Or.inr (Or.inl (by simp [isExpired, hexp]; omega))

/-- C4 witness: an enabled config with budget remaining that expired at
time 5 skips a capture at time 10. -/
theorem C4_expired_skips_witness :
    checkAndCaptureWithContext stExpired "lab" [] "stk" (some callerApp)
      none none 10 = (stExpired, .ok .skipped) :=
  C4_expired_skips stExpired "lab" [] "stk" callerApp none none 10 5
    bpExpired (by decide) (by decide) (by decide) (by decide) (by decide)
    (by decide)

/-- C5: a sync that fetched no breakpoints leaves a cache in which no key
resolves, and a capture call at any previously-armed (registered) identity
then skips with the state unchanged. -/
theorem C5_empty_sync_unresolvable (k : String) (st : ClientState)
    (label : String) (vars : List (String × JSValue)) (stack : String)
    (c : CallerInfo) (reg : Option BreakpointConfig)
    (rc : Option (List (String × JSValue))) (now : Int)
    (hcache : st.breakpointsCache = updateBreakpointCache [])
    (hreg : st.registrationCache.contains (c.functionName ++ ":" ++ label)
      = true) :
    updateBreakpointCache [] k = none ∧
    checkAndCaptureWithContext st label vars stack (some c) reg rc now =
      (st, .ok .skipped) := by
  refine ⟨rfl, ?_⟩
  rw [checkAndCapture_registered st label vars stack c reg rc now hreg]
  unfold captureDecision
  rw [hcache]
  rfl

/-- C5 witness: after an empty sync the previously-armed identity `f:lab`
no longer resolves and capture there skips. -/
theorem C5_empty_sync_unresolvable_witness :
    updateBreakpointCache [] "f:lab" = none ∧
    checkAndCaptureWithContext stEmptySync "lab" [] "stk" (some callerApp)
      none none 0 = (stEmptySync, .ok .skipped) :=
  C5_empty_sync_unresolvable "f:lab" stEmptySync "lab" [] "stk" callerApp
    none none 0 rfl (by decide)

/-- C6 counterexample: the dual-key claim fails as stated.  A fetched
config whose label is the empty string gets no primary-key entry at all,
and when two fetched configs share the primary key `f:x` the earlier one's
primary key resolves to the later config, not to it. -/
theorem C6_dual_key_counterexample :
    updateBreakpointCache [bpNoLbl]
      (bpNoLbl.function_name ++ ":" ++ bpNoLbl.label.getD "") = none ∧
    updateBreakpointCache [bpDup1, bpDup2] "f:x" = some bpDup2 ∧
    bpDup1 ≠ bpDup2 ∧
    updateBreakpointCache [bpDup1, bpDup2] "a.ts:1" = some bpDup1 := by
  decide

/-- C6 amended: after a sync, every fetched config with a non-empty label
and function name whose primary and secondary keys are not written again
by a later config in the fetched list is resolvable under both keys, and
both lookups yield that same config. -/
theorem C6_dual_key_amended (pre post : List BreakpointConfig)
    (bp : BreakpointConfig) (hl : truthyLabel bp = true)
    (hp : ∀ bp2 ∈ post, primaryKey bp ∉ keysWritten bp2)
    (hs : ∀ bp2 ∈ post, secondaryKey bp ∉ keysWritten bp2) :
    updateBreakpointCache (pre ++ bp :: post) (primaryKey bp) = some bp ∧
    updateBreakpointCache (pre ++ bp :: post) (secondaryKey bp) = some bp
    := by
  unfold updateBreakpointCache
  rw [List.foldl_append, List.foldl_cons]
  constructor
  · rw [foldl_cacheInsert_not_written post _ _ hp]
    unfold cacheInsert
    by_cases he : primaryKey bp = secondaryKey bp <;> simp [hl, setF, he]
  · rw [foldl_cacheInsert_not_written post _ _ hs]
    unfold cacheInsert
    simp [hl, setF]

/-- C6 witness: a singleton sync of `bpDup1` populates both of its keys
with the same config. -/
theorem C6_dual_key_amended_witness :
    updateBreakpointCache [bpDup1] (primaryKey bpDup1) = some bpDup1 ∧
    updateBreakpointCache [bpDup1] (secondaryKey bpDup1) = some bpDup1 :=
  C6_dual_key_amended [] [] bpDup1 (by decide) (by simp) (by simp)

/-- C7 counterexample: on the input `(note, "token=AAAAAAAAAAAAAAAAAAAA1234")`
the redaction pipeline produces no finding at all and leaves the value
unredacted — the serialized value matches none of the four value patterns
(in particular not the api-key pattern, which requires an `api_key` /
`api-key` / `apikey` keyword). -/
theorem C7_token_value_counterexample :
    scanForSecurityIssues
      [("note", .str "token=AAAAAAAAAAAAAAAAAAAA1234")] =
      .ok ([("note", .str "token=AAAAAAAAAAAAAAAAAAAA1234")], []) := rfl

/-- C7 amended: on the input `(note, "api_key=AAAAAAAAAAAAAAAAAAAA1234")`
(variable name not sensitive, value an API-key assignment) the value is
redacted and exactly one `sensitive_data_api_key` finding at severity
`high` referencing `note` is produced. -/
theorem C7_api_key_value_redaction :
    scanForSecurityIssues
      [("note", .str "api_key=AAAAAAAAAAAAAAAAAAAA1234")] =
      .ok ([("note", .str "[REDACTED]")],
           [⟨"sensitive_data_api_key", "high", some "note"⟩]) := rfl

/-- C8: the claim that `start` is idempotent fails on the code: a second
`start` schedules a second interval timer and overwrites `pollInterval`
with the new handle, so the first timer is orphaned, and a following
`stop` cancels only the second timer — one sync timer stays active. -/
theorem C8_lifecycle_not_idempotent :
    start (start syncInit) ≠ start syncInit ∧
    (stop (start (start syncInit))).activeTimers = [0] := by decide

/-- C9: a successful auto-registration seeds only the primary key
`functionName:label`; the config's secondary key `filePath:lineNumber`,
previously unseen (and distinct from the primary key), still resolves to
nothing after the call, while the primary key resolves to the registered
config. -/
theorem C9_secondary_key_not_seeded (st : ClientState) (label : String)
    (vars : List (String × JSValue)) (stack : String)
    (rc : Option (List (String × JSValue))) (now : Int) (c : CallerInfo)
    (bp : BreakpointConfig)
    (hnew : st.registrationCache.contains (c.functionName ++ ":" ++ label)
      = false)
    (hne : secondaryKey bp ≠ c.functionName ++ ":" ++ label)
    (hunseen : st.breakpointsCache (secondaryKey bp) = none) :
    ((checkAndCaptureWithContext st label vars stack (some c) (some bp)
        rc now).1).breakpointsCache (secondaryKey bp) = none ∧
    ((checkAndCaptureWithContext st label vars stack (some c) (some bp)
        rc now).1).breakpointsCache (c.functionName ++ ":" ++ label) =
      some bp := by
  simp only [checkAndCaptureWithContext, captureStage, hnew,
    Bool.false_eq_true, if_false]
  exact ⟨by simp [setF, hne, hunseen], by simp [setF]⟩

/-- C9 witness: auto-registering `bpArmed` from a fresh client leaves its
file-and-line key unresolvable while its function-and-label key resolves. -/
theorem C9_secondary_key_not_seeded_witness :
    ((checkAndCaptureWithContext stFresh "lab" [] "stk" (some callerApp)
        (some bpArmed) none 0).1).breakpointsCache (secondaryKey bpArmed)
      = none ∧
    ((checkAndCaptureWithContext stFresh "lab" [] "stk" (some callerApp)
        (some bpArmed) none 0).1).breakpointsCache
        (callerApp.functionName ++ ":" ++ "lab") = some bpArmed :=
  C9_secondary_key_not_seeded stFresh "lab" [] "stk" none 0 callerApp
    bpArmed (by decide) (by decide) rfl

/-- C10: a variable whose name contains one of the five sensitive terms as
a case-insensitive substring has its whole value replaced by `[REDACTED]`
and yields one `sensitive_variable_name` finding at severity `medium`,
with value-based scanning skipped for it (so even a non-serializable value
causes neither a throw nor a high-severity finding). -/
theorem C10_name_substring_redaction (name : String) (v : JSValue)
    (h : sensitiveName name = true) :
    scanForSecurityIssues [(name, v)] =
      .ok ([(name, .str "[REDACTED]")],
           [⟨"sensitive_variable_name", "medium", some name⟩]) := by
  have h1 : sanitizeVariables [(name, v)] = [(name, sanitizeEntry v)] := rfl
  unfold scanForSecurityIssues
  rw [h1]
  simp [scanLoop, h, setA]

/-- C10 witness: the name `monkey` contains `key`, so its value — here a
BigInt that value-scanning would throw on — is redacted with a single
medium finding. -/
theorem C10_name_substring_redaction_witness :
    sensitiveName "monkey" = true ∧
    scanForSecurityIssues [("monkey", JSValue.bigint 7)] =
      .ok ([("monkey", .str "[REDACTED]")],
           [⟨"sensitive_variable_name", "medium", some "monkey"⟩]) :=
  ⟨rfl, C10_name_substring_redaction "monkey" (JSValue.bigint 7) rfl⟩

end SnapshotClient
